import Mathlib

/-!
# Verification of the auth environment configurator and environment credential backend

Shallow embedding of two modules:

* `src/packages/shared/src/auth/env.ts` — the Auth Environment Configurator
  (`setAuthEnvironment`, `clearAuthEnvironment`, `isProxyAuthConfigured`).
* `src/packages/shared/src/credentials/backends/env.ts` — the Environment
  Credential Backend (`ENV_MAP`, `getEnvValue`, `hasEnvProxyConfig`,
  `getEnvBaseUrl`, `getEnvAuthToken`, and the `EnvironmentBackend` methods
  `get`, `set`, `delete`, `list`, `isAvailable`).

The process environment is modelled as a partial map from variable names to
string values. JavaScript truthiness of a `string | undefined` value (used by
the source in `if (value)`, `if (id.workspaceId)`, `if (auth.credentials.baseUrl)`
and the proxy-detection predicates) is: defined and non-empty.
Mutating operations take the environment and return the updated environment;
the backend methods additionally return their result. The source's `throw` in
`EnvironmentBackend.set` is modelled by an `Except` error value.
-/

namespace CraftAgents

/-- The process environment: a partial map from variable names to values.
`none` is an unset variable (JS `undefined`), `some ""` is a variable that is
present but holds the empty string. -/
abbrev Env : Type := String → Option String

/-- Source statement `process.env.k = v`. -/
def envSet (e : Env) (k v : String) : Env :=
  fun x => if x = k then some v else e x

/-- Source statement `delete process.env.k`. -/
def envDelete (e : Env) (k : String) : Env :=
  fun x => if x = k then none else e x

/-- JavaScript truthiness of a `string | undefined` value:
`undefined` and `""` are falsy, every non-empty string is truthy. -/
def jsTruthy : Option String → Bool
  | none => false
  | some s => !s.isEmpty

/-! ## Data model (`auth/env.ts`) -/

/-- Source `interface ApiKeyCredentials`. -/
structure ApiKeyCredentials where
  apiKey : String
  baseUrl : Option String
deriving DecidableEq

/-- Source `interface ClaudeMaxCredentials`. -/
structure ClaudeMaxCredentials where
  oauthToken : String
deriving DecidableEq

/-- Source `interface ProxyCredentials`. -/
structure ProxyCredentials where
  authToken : Option String
  apiKey : Option String
  baseUrl : String
deriving DecidableEq

/-- Source `type AuthCredentials` — tagged union over the three auth modes. -/
inductive AuthCredentials where
  | api_key (credentials : ApiKeyCredentials)
  | oauth_token (credentials : ClaudeMaxCredentials)
  | proxy (credentials : ProxyCredentials)
deriving DecidableEq

/-! ## Auth Environment Configurator (`auth/env.ts`) -/

/-- Source `setAuthEnvironment(auth)`: first deletes the four managed variables, then
sets the ones for the selected mode. Optional fields are guarded by JS
truthiness (`if (auth.credentials.baseUrl)` etc.), so a provided empty string
is not written. -/
def setAuthEnvironment (auth : AuthCredentials) (e : Env) : Env :=
  let e1 := envDelete e "ANTHROPIC_API_KEY"
  let e2 := envDelete e1 "CLAUDE_CODE_OAUTH_TOKEN"
  let e3 := envDelete e2 "ANTHROPIC_AUTH_TOKEN"
  let e4 := envDelete e3 "ANTHROPIC_BASE_URL"
  match auth with
  | .api_key c =>
      let e5 := envSet e4 "ANTHROPIC_API_KEY" c.apiKey
      match c.baseUrl with
      | some u => if u.isEmpty then e5 else envSet e5 "ANTHROPIC_BASE_URL" u
      | none => e5
  | .oauth_token c =>
      envSet e4 "CLAUDE_CODE_OAUTH_TOKEN" c.oauthToken
  | .proxy c =>
      let e5 := envSet e4 "ANTHROPIC_BASE_URL" c.baseUrl
      let e6 :=
        match c.authToken with
        | some t => if t.isEmpty then e5 else envSet e5 "ANTHROPIC_AUTH_TOKEN" t
        | none => e5
      match c.apiKey with
      | some k => if k.isEmpty then e6 else envSet e6 "ANTHROPIC_API_KEY" k
      | none => e6

/-- Source `clearAuthEnvironment()`: deletes the four managed variables. -/
def clearAuthEnvironment (e : Env) : Env :=
  let e1 := envDelete e "ANTHROPIC_API_KEY"
  let e2 := envDelete e1 "CLAUDE_CODE_OAUTH_TOKEN"
  let e3 := envDelete e2 "ANTHROPIC_AUTH_TOKEN"
  envDelete e3 "ANTHROPIC_BASE_URL"

/-- Source `isProxyAuthConfigured()`, the predicate
`!!(process.env.ANTHROPIC_BASE_URL && (process.env.ANTHROPIC_AUTH_TOKEN || process.env.ANTHROPIC_API_KEY))`.
A pure read of the environment. -/
def isProxyAuthConfigured (e : Env) : Bool :=
  jsTruthy (e "ANTHROPIC_BASE_URL") &&
    (jsTruthy (e "ANTHROPIC_AUTH_TOKEN") || jsTruthy (e "ANTHROPIC_API_KEY"))

/-! ## Environment Credential Backend (`credentials/backends/env.ts`) -/

/-- Source `interface CredentialId` — the credential type tag plus an optional
workspace scope. `ENV_MAP` is a `Record<string, string[]>`, so the type tag is
modelled as a plain string. -/
structure CredentialId where
  type : String
  workspaceId : Option String
deriving DecidableEq

/-- Source `interface StoredCredential`. -/
structure StoredCredential where
  value : String
deriving DecidableEq

/-- Source `Partial<CredentialId>` — the (ignored) filter argument of `list`. -/
structure CredentialFilter where
  type : Option String
  workspaceId : Option String
deriving DecidableEq

/-- The entries of `ENV_MAP`, in declaration order (the order
`Object.entries` yields for this literal). -/
def ENV_MAP_entries : List (String × List String) :=
  [("anthropic_api_key", ["CRAFT_ANTHROPIC_API_KEY", "ANTHROPIC_API_KEY"]),
   ("claude_oauth", ["CRAFT_CLAUDE_OAUTH_TOKEN"]),
   ("anthropic_auth_token", ["ANTHROPIC_AUTH_TOKEN"])]

/-- Source `ENV_MAP[t]` — record lookup; `none` for an unmapped credential type. -/
def ENV_MAP (t : String) : Option (List String) :=
  (ENV_MAP_entries.find? (fun p => p.1 == t)).map Prod.snd

/-- Source `hasEnvProxyConfig()` — textually the same predicate as
`isProxyAuthConfigured`, living in the backend module. -/
def hasEnvProxyConfig (e : Env) : Bool :=
  jsTruthy (e "ANTHROPIC_BASE_URL") &&
    (jsTruthy (e "ANTHROPIC_AUTH_TOKEN") || jsTruthy (e "ANTHROPIC_API_KEY"))

/-- Source `getEnvBaseUrl()`. -/
def getEnvBaseUrl (e : Env) : Option String :=
  e "ANTHROPIC_BASE_URL"

/-- Source `getEnvAuthToken()`. -/
def getEnvAuthToken (e : Env) : Option String :=
  e "ANTHROPIC_AUTH_TOKEN"

/-- Source `getEnvValue(envVars)`: the first variable in the list holding a truthy
(non-empty) value; the loop skips falsy values (`undefined` and `""`). -/
def getEnvValue (envVars : List String) (e : Env) : Option String :=
  match envVars with
  | [] => none
  | envVar :: rest =>
      match e envVar with
      | some value => if value.isEmpty then getEnvValue rest e else some value
      | none => getEnvValue rest e

namespace EnvironmentBackend

/-- Source `readonly name = 'environment'`. -/
def name : String := "environment"

/-- Source `readonly priority = 110`. -/
def priority : Nat := 110

/-- Source `isAvailable()` — always true. -/
def isAvailable : Bool := true

/-- Source `get(id)`: `null` for scoped ids (`if (id.workspaceId)` — JS truthiness),
unmapped types, and when no mapped variable holds a truthy value; otherwise
`{ value }` from the first truthy mapped variable. -/
def get (id : CredentialId) (e : Env) : Option StoredCredential :=
  if jsTruthy id.workspaceId then none
  else
    match ENV_MAP id.type with
    | none => none
    | some envVars =>
        match getEnvValue envVars e with
        | none => none
        | some value => if value.isEmpty then none else some ⟨value⟩

/-- Source `set(id, credential)`: always throws (read-only backend); the environment
is untouched. -/
def set (_id : CredentialId) (_credential : StoredCredential) (e : Env) :
    Except String Unit × Env :=
  (Except.error "Environment backend is read-only", e)

/-- Source `delete(id)`: always returns `false` (read-only backend); the environment
is untouched. -/
def delete (_id : CredentialId) (e : Env) : Bool × Env :=
  (false, e)

/-- Source `list(filter)`: ignores the filter; one identity (type only, no
workspaceId) per mapped credential type whose variables yield a truthy value. -/
def list (_filter : Option CredentialFilter) (e : Env) : List CredentialId :=
  (ENV_MAP_entries.filter (fun p => jsTruthy (getEnvValue p.2 e))).map
    (fun p => ⟨p.1, none⟩)

end EnvironmentBackend


/-! ## Helper lemmas -/

/-- The four environment variables managed by the Configurator. -/
def managedVars : List String :=
  ["ANTHROPIC_API_KEY", "CLAUDE_CODE_OAUTH_TOKEN", "ANTHROPIC_AUTH_TOKEN", "ANTHROPIC_BASE_URL"]

theorem envSet_apply (e : Env) (k v x : String) :
    envSet e k v x = if x = k then some v else e x := rfl

theorem envDelete_apply (e : Env) (k x : String) :
    envDelete e k x = if x = k then none else e x := rfl

theorem clearAuthEnvironment_apply (e : Env) (k : String) :
    clearAuthEnvironment e k = if k ∈ managedVars then none else e k := by
  by_cases h1 : k = "ANTHROPIC_API_KEY" <;>
    by_cases h2 : k = "CLAUDE_CODE_OAUTH_TOKEN" <;>
      by_cases h3 : k = "ANTHROPIC_AUTH_TOKEN" <;>
        by_cases h4 : k = "ANTHROPIC_BASE_URL" <;>
          simp [clearAuthEnvironment, envDelete, managedVars, h1, h2, h3, h4]

/-- The value of the API-key slot after `setAuthEnvironment`, as a function of
the credential variant alone. -/
theorem setAuthEnvironment_apply_apiKeySlot (auth : AuthCredentials) (e : Env) :
    setAuthEnvironment auth e "ANTHROPIC_API_KEY" =
      match auth with
      | .api_key c => some c.apiKey
      | .oauth_token _ => none
      | .proxy c => if jsTruthy c.apiKey then c.apiKey else none := by
  cases auth with
  | api_key c =>
      rcases c with ⟨ak, bu⟩
      rcases bu with _ | u
      · simp [setAuthEnvironment, envSet, envDelete, jsTruthy]
      · by_cases hu : u.isEmpty <;>
          simp [setAuthEnvironment, envSet, envDelete, jsTruthy, hu]
  | oauth_token c => simp [setAuthEnvironment, envSet, envDelete]
  | proxy c =>
      rcases c with ⟨tk, ky, bu⟩
      rcases tk with _ | t
      · rcases ky with _ | k
        · simp [setAuthEnvironment, envSet, envDelete, jsTruthy]
        · by_cases hk : k.isEmpty <;>
            simp [setAuthEnvironment, envSet, envDelete, jsTruthy, hk]
      · rcases ky with _ | k
        · by_cases ht : t.isEmpty <;>
            simp [setAuthEnvironment, envSet, envDelete, jsTruthy, ht]
        · by_cases ht : t.isEmpty <;> by_cases hk : k.isEmpty <;>
            simp [setAuthEnvironment, envSet, envDelete, jsTruthy, ht, hk]

/-- The value of the OAuth slot after `setAuthEnvironment`, as a function of
the credential variant alone. -/
theorem setAuthEnvironment_apply_oauthSlot (auth : AuthCredentials) (e : Env) :
    setAuthEnvironment auth e "CLAUDE_CODE_OAUTH_TOKEN" =
      match auth with
      | .oauth_token c => some c.oauthToken
      | _ => none := by
  cases auth with
  | api_key c =>
      rcases c with ⟨ak, bu⟩
      rcases bu with _ | u
      · simp [setAuthEnvironment, envSet, envDelete, jsTruthy]
      · by_cases hu : u.isEmpty <;>
          simp [setAuthEnvironment, envSet, envDelete, jsTruthy, hu]
  | oauth_token c => simp [setAuthEnvironment, envSet, envDelete]
  | proxy c =>
      rcases c with ⟨tk, ky, bu⟩
      rcases tk with _ | t
      · rcases ky with _ | k
        · simp [setAuthEnvironment, envSet, envDelete, jsTruthy]
        · by_cases hk : k.isEmpty <;>
            simp [setAuthEnvironment, envSet, envDelete, jsTruthy, hk]
      · rcases ky with _ | k
        · by_cases ht : t.isEmpty <;>
            simp [setAuthEnvironment, envSet, envDelete, jsTruthy, ht]
        · by_cases ht : t.isEmpty <;> by_cases hk : k.isEmpty <;>
            simp [setAuthEnvironment, envSet, envDelete, jsTruthy, ht, hk]

/-- The value of the proxy-auth-token slot after `setAuthEnvironment`, as a
function of the credential variant alone. -/
theorem setAuthEnvironment_apply_authTokenSlot (auth : AuthCredentials) (e : Env) :
    setAuthEnvironment auth e "ANTHROPIC_AUTH_TOKEN" =
      match auth with
      | .proxy c => if jsTruthy c.authToken then c.authToken else none
      | _ => none := by
  cases auth with
  | api_key c =>
      rcases c with ⟨ak, bu⟩
      rcases bu with _ | u
      · simp [setAuthEnvironment, envSet, envDelete, jsTruthy]
      · by_cases hu : u.isEmpty <;>
          simp [setAuthEnvironment, envSet, envDelete, jsTruthy, hu]
  | oauth_token c => simp [setAuthEnvironment, envSet, envDelete]
  | proxy c =>
      rcases c with ⟨tk, ky, bu⟩
      rcases tk with _ | t
      · rcases ky with _ | k
        · simp [setAuthEnvironment, envSet, envDelete, jsTruthy]
        · by_cases hk : k.isEmpty <;>
            simp [setAuthEnvironment, envSet, envDelete, jsTruthy, hk]
      · rcases ky with _ | k
        · by_cases ht : t.isEmpty <;>
            simp [setAuthEnvironment, envSet, envDelete, jsTruthy, ht]
        · by_cases ht : t.isEmpty <;> by_cases hk : k.isEmpty <;>
            simp [setAuthEnvironment, envSet, envDelete, jsTruthy, ht, hk]

/-- The value of the base-URL slot after `setAuthEnvironment`, as a function of
the credential variant alone. -/
theorem setAuthEnvironment_apply_baseUrlSlot (auth : AuthCredentials) (e : Env) :
    setAuthEnvironment auth e "ANTHROPIC_BASE_URL" =
      match auth with
      | .api_key c => if jsTruthy c.baseUrl then c.baseUrl else none
      | .oauth_token _ => none
      | .proxy c => some c.baseUrl := by
  cases auth with
  | api_key c =>
      rcases c with ⟨ak, bu⟩
      rcases bu with _ | u
      · simp [setAuthEnvironment, envSet, envDelete, jsTruthy]
      · by_cases hu : u.isEmpty <;>
          simp [setAuthEnvironment, envSet, envDelete, jsTruthy, hu]
  | oauth_token c => simp [setAuthEnvironment, envSet, envDelete]
  | proxy c =>
      rcases c with ⟨tk, ky, bu⟩
      rcases tk with _ | t
      · rcases ky with _ | k
        · simp [setAuthEnvironment, envSet, envDelete, jsTruthy]
        · by_cases hk : k.isEmpty <;>
            simp [setAuthEnvironment, envSet, envDelete, jsTruthy, hk]
      · rcases ky with _ | k
        · by_cases ht : t.isEmpty <;>
            simp [setAuthEnvironment, envSet, envDelete, jsTruthy, ht]
        · by_cases ht : t.isEmpty <;> by_cases hk : k.isEmpty <;>
            simp [setAuthEnvironment, envSet, envDelete, jsTruthy, ht, hk]



theorem getEnvValue_eq_none_iff (vars : List String) (e : Env) :
    getEnvValue vars e = none ↔ ∀ v ∈ vars, jsTruthy (e v) = false := by
  induction vars with
  | nil => simp [getEnvValue]
  | cons v rest ih =>
      cases hv : e v with
      | none => simp [getEnvValue, hv, ih, jsTruthy]
      | some s =>
          by_cases hs : s.isEmpty <;>
            simp [getEnvValue, hv, ih, jsTruthy, hs]

theorem getEnvValue_first (pre : List String) (v : String) (rest : List String)
    (s : String) (e : Env) (hpre : ∀ w ∈ pre, jsTruthy (e w) = false)
    (hv : e v = some s) (hs : s.isEmpty = false) :
    getEnvValue (pre ++ v :: rest) e = some s := by
  induction pre with
  | nil => simp [getEnvValue, hv, hs]
  | cons w ws ih =>
      have hw := hpre w (by simp)
      have hws : ∀ x ∈ ws, jsTruthy (e x) = false := fun x hx => hpre x (by simp [hx])
      cases hew : e w with
      | none => simpa [getEnvValue, hew] using ih hws
      | some sw =>
          have hsw : sw.isEmpty = true := by
            have h := hw
            simp [jsTruthy, hew] at h
            exact h
          simpa [getEnvValue, hew, hsw] using ih hws

theorem jsTruthy_none : jsTruthy none = false := rfl

theorem jsTruthy_some (s : String) : jsTruthy (some s) = !s.isEmpty := rfl

theorem jsTruthy_getEnvValue_iff (vars : List String) (e : Env) :
    jsTruthy (getEnvValue vars e) = true ↔ ∃ v ∈ vars, jsTruthy (e v) = true := by
  induction vars with
  | nil => simp [getEnvValue, jsTruthy_none]
  | cons v rest ih =>
      cases hv : e v with
      | none => simp [getEnvValue, hv, ih, jsTruthy_none]
      | some s =>
          by_cases hs : s.isEmpty <;>
            simp [getEnvValue, hv, ih, jsTruthy_none, jsTruthy_some, hs]

theorem getEnvValue_nonempty (vars : List String) (e : Env) (s : String)
    (h : getEnvValue vars e = some s) : s.isEmpty = false := by
  induction vars with
  | nil => simp [getEnvValue] at h
  | cons v rest ih =>
      cases hv : e v with
      | none =>
          simp only [getEnvValue, hv] at h
          exact ih h
      | some sv =>
          simp only [getEnvValue, hv] at h
          by_cases hsv : sv.isEmpty
          · simp [hsv] at h
            exact ih h
          · have hsv2 : sv.isEmpty = false := by simpa using hsv
            simp [hsv2] at h
            exact h ▸ hsv2

theorem ENV_MAP_entries_mem (t : String) (vars : List String) :
    (t, vars) ∈ ENV_MAP_entries ↔ ENV_MAP t = some vars := by
  constructor
  · intro h
    simp [ENV_MAP_entries] at h
    rcases h with ⟨rfl, rfl⟩ | ⟨rfl, rfl⟩ | ⟨rfl, rfl⟩ <;> rfl
  · intro h
    by_cases h1 : t = "anthropic_api_key"
    · subst h1
      simp [ENV_MAP, ENV_MAP_entries] at h
      simp [ENV_MAP_entries, h]
    · by_cases h2 : t = "claude_oauth"
      · subst h2
        simp [ENV_MAP, ENV_MAP_entries] at h
        simp [ENV_MAP_entries, h]
      · by_cases h3 : t = "anthropic_auth_token"
        · subst h3
          simp [ENV_MAP, ENV_MAP_entries] at h
          simp [ENV_MAP_entries, h]
        · exfalso
          have e1 : ("anthropic_api_key" == t) = false := by
            simp [h1]
            intro hx
            exact h1 hx.symm
          have e2 : ("claude_oauth" == t) = false := by
            simp
            intro hx
            exact h2 hx.symm
          have e3 : ("anthropic_auth_token" == t) = false := by
            simp
            intro hx
            exact h3 hx.symm
          simp [ENV_MAP, ENV_MAP_entries, List.find?, e1, e2, e3] at h


/-! ## Claim theorems -/

/-- C9: `clearAuthEnvironment()` deletes all four managed slots unconditionally
and is idempotent: running it twice yields the same environment as running it
once. -/
theorem clearAuthEnvironment_idempotent (e : Env) :
    clearAuthEnvironment e "ANTHROPIC_API_KEY" = none ∧
    clearAuthEnvironment e "CLAUDE_CODE_OAUTH_TOKEN" = none ∧
    clearAuthEnvironment e "ANTHROPIC_AUTH_TOKEN" = none ∧
    clearAuthEnvironment e "ANTHROPIC_BASE_URL" = none ∧
    clearAuthEnvironment (clearAuthEnvironment e) = clearAuthEnvironment e := by
  refine ⟨?_, ?_, ?_, ?_, ?_⟩
  · simp [clearAuthEnvironment_apply, managedVars]
  · simp [clearAuthEnvironment_apply, managedVars]
  · simp [clearAuthEnvironment_apply, managedVars]
  · simp [clearAuthEnvironment_apply, managedVars]
  · funext k
    by_cases hk : k ∈ managedVars <;>
      simp [clearAuthEnvironment_apply, hk]

/-- C5: `isProxyAuthConfigured` and `hasEnvProxyConfig` return the same
boolean, true exactly when the base-URL slot is non-empty and at least one of
the proxy-auth-token and API-key slots is non-empty. Both are pure reads of the
environment (they are functions of the environment and return only a boolean). -/
theorem isProxyAuthConfigured_spec (e : Env) :
    isProxyAuthConfigured e = hasEnvProxyConfig e ∧
    (isProxyAuthConfigured e = true ↔
      jsTruthy (e "ANTHROPIC_BASE_URL") = true ∧
        (jsTruthy (e "ANTHROPIC_AUTH_TOKEN") = true ∨
          jsTruthy (e "ANTHROPIC_API_KEY") = true)) := by
  constructor
  · rfl
  · simp [isProxyAuthConfigured, Bool.and_eq_true, Bool.or_eq_true]

/-- C7: `EnvironmentBackend.set` always signals the read-only error and
`EnvironmentBackend.delete` always returns `false` without an error; neither
call changes the environment. -/
theorem environmentBackend_readonly (id : CredentialId) (cred : StoredCredential) (e : Env) :
    (EnvironmentBackend.set id cred e).1 =
        Except.error "Environment backend is read-only" ∧
    (EnvironmentBackend.set id cred e).2 = e ∧
    (EnvironmentBackend.delete id e).1 = false ∧
    (EnvironmentBackend.delete id e).2 = e :=
  ⟨rfl, rfl, rfl, rfl⟩

/-- C8 (amended): after `setAuthEnvironment` with an `api_key` credential, the
OAuth and proxy-auth-token slots are empty, the API-key slot equals the input
key, and the base-URL slot equals the optional input base URL when that field
is provided and non-empty, and is empty otherwise (a provided empty string is
falsy in the source guard and is not written). -/
theorem setAuthEnvironment_api_key_slots (c : ApiKeyCredentials) (e : Env) :
    setAuthEnvironment (.api_key c) e "CLAUDE_CODE_OAUTH_TOKEN" = none ∧
    setAuthEnvironment (.api_key c) e "ANTHROPIC_AUTH_TOKEN" = none ∧
    setAuthEnvironment (.api_key c) e "ANTHROPIC_API_KEY" = some c.apiKey ∧
    setAuthEnvironment (.api_key c) e "ANTHROPIC_BASE_URL" =
      (if jsTruthy c.baseUrl then c.baseUrl else none) := by
  refine ⟨?_, ?_, ?_, ?_⟩
  · simp [setAuthEnvironment_apply_oauthSlot]
  · simp [setAuthEnvironment_apply_authTokenSlot]
  · simp [setAuthEnvironment_apply_apiKeySlot]
  · simp [setAuthEnvironment_apply_baseUrlSlot]

/-- C8 counterexample: an `api_key` credential whose optional `baseUrl` field
is provided as the empty string. The claim as stated requires the base-URL slot
to equal the provided value afterwards, but the source's truthiness guard skips
the write, leaving the slot unset. -/
theorem api_key_empty_baseUrl_counterexample :
    (ApiKeyCredentials.mk "k" (some "")).baseUrl = some "" ∧
    setAuthEnvironment (.api_key ⟨"k", some ""⟩) (fun _ => none) "ANTHROPIC_BASE_URL" = none ∧
    setAuthEnvironment (.api_key ⟨"k", some ""⟩) (fun _ => none) "ANTHROPIC_BASE_URL" ≠ some "" :=
  ⟨rfl, rfl, by decide⟩

/-- C4 (amended): after `setAuthEnvironment` with a `proxy` credential, the
base-URL slot always equals the input base URL and the OAuth slot is empty; the
proxy-auth-token and API-key slots hold the corresponding optional input field
exactly when that field is provided and non-empty, and are empty otherwise (a
provided empty string is falsy in the source guard and is not written). -/
theorem setAuthEnvironment_proxy_slots (c : ProxyCredentials) (e : Env) :
    setAuthEnvironment (.proxy c) e "ANTHROPIC_BASE_URL" = some c.baseUrl ∧
    setAuthEnvironment (.proxy c) e "CLAUDE_CODE_OAUTH_TOKEN" = none ∧
    setAuthEnvironment (.proxy c) e "ANTHROPIC_AUTH_TOKEN" =
      (if jsTruthy c.authToken then c.authToken else none) ∧
    setAuthEnvironment (.proxy c) e "ANTHROPIC_API_KEY" =
      (if jsTruthy c.apiKey then c.apiKey else none) := by
  refine ⟨?_, ?_, ?_, ?_⟩
  · simp [setAuthEnvironment_apply_baseUrlSlot]
  · simp [setAuthEnvironment_apply_oauthSlot]
  · simp [setAuthEnvironment_apply_authTokenSlot]
  · simp [setAuthEnvironment_apply_apiKeySlot]

/-- C4 counterexample: a `proxy` credential whose optional `authToken` field is
provided as the empty string. The claim as stated requires the proxy-auth-token
slot to be populated because the field was provided, but the source's
truthiness guard skips the write, leaving the slot unset. -/
theorem proxy_empty_authToken_counterexample :
    (ProxyCredentials.mk (some "") none "u").authToken = some "" ∧
    setAuthEnvironment (.proxy ⟨some "", none, "u"⟩) (fun _ => none) "ANTHROPIC_AUTH_TOKEN" = none :=
  ⟨rfl, rfl⟩


/-- C1: `setAuthEnvironment` makes the four managed slots a mutually-exclusive
register: the slot contents after a set depend only on the active variant (no
residue from the previous environment), and no slot belonging to another
variant is populated — in particular, for an `oauth_token` credential only the
OAuth slot is populated and the other three slots are empty. -/
theorem setAuthEnvironment_mutual_exclusion (auth : AuthCredentials) (e e' : Env) :
    (∀ k ∈ managedVars, setAuthEnvironment auth e k = setAuthEnvironment auth e' k) ∧
    (∀ c, auth = .oauth_token c →
       setAuthEnvironment auth e "CLAUDE_CODE_OAUTH_TOKEN" = some c.oauthToken ∧
       setAuthEnvironment auth e "ANTHROPIC_API_KEY" = none ∧
       setAuthEnvironment auth e "ANTHROPIC_AUTH_TOKEN" = none ∧
       setAuthEnvironment auth e "ANTHROPIC_BASE_URL" = none) ∧
    (∀ c, auth = .api_key c →
       setAuthEnvironment auth e "CLAUDE_CODE_OAUTH_TOKEN" = none ∧
       setAuthEnvironment auth e "ANTHROPIC_AUTH_TOKEN" = none) ∧
    (∀ c, auth = .proxy c →
       setAuthEnvironment auth e "CLAUDE_CODE_OAUTH_TOKEN" = none) := by
  refine ⟨?_, ?_, ?_, ?_⟩
  · intro k hk
    simp only [managedVars, List.mem_cons, List.not_mem_nil, or_false] at hk
    rcases hk with rfl | rfl | rfl | rfl
    · rw [setAuthEnvironment_apply_apiKeySlot, setAuthEnvironment_apply_apiKeySlot]
    · rw [setAuthEnvironment_apply_oauthSlot, setAuthEnvironment_apply_oauthSlot]
    · rw [setAuthEnvironment_apply_authTokenSlot, setAuthEnvironment_apply_authTokenSlot]
    · rw [setAuthEnvironment_apply_baseUrlSlot, setAuthEnvironment_apply_baseUrlSlot]
  · rintro c rfl
    exact ⟨by simp [setAuthEnvironment_apply_oauthSlot],
           by simp [setAuthEnvironment_apply_apiKeySlot],
           by simp [setAuthEnvironment_apply_authTokenSlot],
           by simp [setAuthEnvironment_apply_baseUrlSlot]⟩
  · rintro c rfl
    exact ⟨by simp [setAuthEnvironment_apply_oauthSlot],
           by simp [setAuthEnvironment_apply_authTokenSlot]⟩
  · rintro c rfl
    simp [setAuthEnvironment_apply_oauthSlot]

/-- Witness for C1: a concrete `oauth_token` set over a fully-populated
environment leaves only the OAuth slot populated, and the managed slots agree
with a set over the empty environment. -/
theorem setAuthEnvironment_mutual_exclusion_witness :
    setAuthEnvironment (.oauth_token ⟨"tok"⟩) (fun _ => some "x") "ANTHROPIC_API_KEY" =
        setAuthEnvironment (.oauth_token ⟨"tok"⟩) (fun _ => none) "ANTHROPIC_API_KEY" ∧
    setAuthEnvironment (.oauth_token ⟨"tok"⟩) (fun _ => some "x") "CLAUDE_CODE_OAUTH_TOKEN" = some "tok" ∧
    setAuthEnvironment (.oauth_token ⟨"tok"⟩) (fun _ => some "x") "ANTHROPIC_API_KEY" = none ∧
    setAuthEnvironment (.oauth_token ⟨"tok"⟩) (fun _ => some "x") "ANTHROPIC_AUTH_TOKEN" = none ∧
    setAuthEnvironment (.oauth_token ⟨"tok"⟩) (fun _ => some "x") "ANTHROPIC_BASE_URL" = none :=
  ⟨(setAuthEnvironment_mutual_exclusion (.oauth_token ⟨"tok"⟩) (fun _ => some "x")
        (fun _ => none)).1 "ANTHROPIC_API_KEY" (by decide),
   (setAuthEnvironment_mutual_exclusion (.oauth_token ⟨"tok"⟩) (fun _ => some "x")
        (fun _ => none)).2.1 ⟨"tok"⟩ rfl⟩

/-- C10: `setAuthEnvironment` and `clearAuthEnvironment` leave every
environment variable outside the four managed slots unchanged. -/
theorem auth_env_frame (auth : AuthCredentials) (e : Env) (k : String)
    (h : k ∉ managedVars) :
    setAuthEnvironment auth e k = e k ∧ clearAuthEnvironment e k = e k := by
  have hk : ¬k = "ANTHROPIC_API_KEY" ∧ ¬k = "CLAUDE_CODE_OAUTH_TOKEN" ∧
      ¬k = "ANTHROPIC_AUTH_TOKEN" ∧ ¬k = "ANTHROPIC_BASE_URL" := by
    simpa [managedVars, not_or] using h
  obtain ⟨h1, h2, h3, h4⟩ := hk
  constructor
  · cases auth with
    | api_key c =>
        rcases c with ⟨ak, bu⟩
        rcases bu with _ | u
        · simp [setAuthEnvironment, envSet, envDelete, h1, h2, h3, h4]
        · by_cases hu : u.isEmpty <;>
            simp [setAuthEnvironment, envSet, envDelete, h1, h2, h3, h4, hu]
    | oauth_token c => simp [setAuthEnvironment, envSet, envDelete, h1, h2, h3, h4]
    | proxy c =>
        rcases c with ⟨tk, ky, bu⟩
        rcases tk with _ | t
        · rcases ky with _ | k2
          · simp [setAuthEnvironment, envSet, envDelete, h1, h2, h3, h4]
          · by_cases hk2 : k2.isEmpty <;>
              simp [setAuthEnvironment, envSet, envDelete, h1, h2, h3, h4, hk2]
        · rcases ky with _ | k2
          · by_cases ht : t.isEmpty <;>
              simp [setAuthEnvironment, envSet, envDelete, h1, h2, h3, h4, ht]
          · by_cases ht : t.isEmpty <;> by_cases hk2 : k2.isEmpty <;>
              simp [setAuthEnvironment, envSet, envDelete, h1, h2, h3, h4, ht, hk2]
  · simp [clearAuthEnvironment, envDelete, h1, h2, h3, h4]

/-- Witness for C10: the backend's highest-priority variable
`CRAFT_ANTHROPIC_API_KEY` survives both a set and a clear. -/
theorem auth_env_frame_witness :
    setAuthEnvironment (.oauth_token ⟨"t"⟩)
        (fun k => if k = "CRAFT_ANTHROPIC_API_KEY" then some "a" else none)
        "CRAFT_ANTHROPIC_API_KEY" = some "a" ∧
    clearAuthEnvironment
        (fun k => if k = "CRAFT_ANTHROPIC_API_KEY" then some "a" else none)
        "CRAFT_ANTHROPIC_API_KEY" = some "a" :=
  ⟨((auth_env_frame (.oauth_token ⟨"t"⟩)
        (fun k => if k = "CRAFT_ANTHROPIC_API_KEY" then some "a" else none)
        "CRAFT_ANTHROPIC_API_KEY" (by decide)).1).trans (by decide),
   ((auth_env_frame (.oauth_token ⟨"t"⟩)
        (fun k => if k = "CRAFT_ANTHROPIC_API_KEY" then some "a" else none)
        "CRAFT_ANTHROPIC_API_KEY" (by decide)).2).trans (by decide)⟩


/-- C3 (amended): `EnvironmentBackend.get` fails closed — it returns `null`
(and never throws; the embedding is a total function into `Option`) when
`id.workspaceId` holds a non-empty string (the source guard `if (id.workspaceId)`
is JS truthiness, so a present-but-empty workspaceId does not short-circuit),
when `id.type` has no `ENV_MAP` entry, or when no mapped variable holds a
non-empty value; otherwise it returns the value of the first mapped variable,
in priority order, that holds a non-empty value. -/
theorem environmentBackend_get_spec (id : CredentialId) (e : Env) :
    (jsTruthy id.workspaceId = true → EnvironmentBackend.get id e = none) ∧
    (ENV_MAP id.type = none → EnvironmentBackend.get id e = none) ∧
    (∀ vars, ENV_MAP id.type = some vars →
       (∀ v ∈ vars, jsTruthy (e v) = false) → EnvironmentBackend.get id e = none) ∧
    (∀ pre v rest s, jsTruthy id.workspaceId = false →
       ENV_MAP id.type = some (pre ++ v :: rest) →
       (∀ w ∈ pre, jsTruthy (e w) = false) → e v = some s → s.isEmpty = false →
       EnvironmentBackend.get id e = some ⟨s⟩) := by
  refine ⟨?_, ?_, ?_, ?_⟩
  · intro h
    simp [EnvironmentBackend.get, h]
  · intro h
    by_cases hw : jsTruthy id.workspaceId <;>
      simp [EnvironmentBackend.get, hw, h]
  · intro vars hm hall
    have hn : getEnvValue vars e = none := (getEnvValue_eq_none_iff vars e).2 hall
    by_cases hw : jsTruthy id.workspaceId <;>
      simp [EnvironmentBackend.get, hw, hm, hn]
  · intro pre v rest s hw hm hpre hv hs
    have hg := getEnvValue_first pre v rest s e hpre hv hs
    simp [EnvironmentBackend.get, hw, hm, hg, hs]

/-- Witness for C3 — the spec's priority example: with
`CRAFT_ANTHROPIC_API_KEY="a"` and `ANTHROPIC_API_KEY="b"` both set,
`get({type:'anthropic_api_key'})` returns `"a"`. -/
theorem environmentBackend_get_spec_witness :
    EnvironmentBackend.get ⟨"anthropic_api_key", none⟩
      (fun k => if k = "CRAFT_ANTHROPIC_API_KEY" then some "a"
        else if k = "ANTHROPIC_API_KEY" then some "b" else none) = some ⟨"a"⟩ :=
  (environmentBackend_get_spec ⟨"anthropic_api_key", none⟩
      (fun k => if k = "CRAFT_ANTHROPIC_API_KEY" then some "a"
        else if k = "ANTHROPIC_API_KEY" then some "b" else none)).2.2.2
    [] "CRAFT_ANTHROPIC_API_KEY" ["ANTHROPIC_API_KEY"] "a"
    rfl (by decide) (by simp) (by decide) rfl

/-- C3 counterexample: an id whose `workspaceId` is present but equal to the
empty string. The claim as stated requires `get` to return `null` whenever
`workspaceId` is set, but the source's truthiness guard treats `""` as unset
and the lookup proceeds and succeeds. -/
theorem get_empty_workspaceId_counterexample :
    (CredentialId.mk "anthropic_api_key" (some "")).workspaceId = some "" ∧
    EnvironmentBackend.get ⟨"anthropic_api_key", some ""⟩
        (fun k => if k = "CRAFT_ANTHROPIC_API_KEY" then some "a" else none) = some ⟨"a"⟩ ∧
    EnvironmentBackend.get ⟨"anthropic_api_key", some ""⟩
        (fun k => if k = "CRAFT_ANTHROPIC_API_KEY" then some "a" else none) ≠ none :=
  ⟨rfl, by decide, by decide⟩

/-- C6: `EnvironmentBackend.list` ignores its filter argument, and its result
contains exactly the identities — carrying a type and no workspaceId — whose
`ENV_MAP` entry has at least one mapped variable holding a non-empty value. -/
theorem environmentBackend_list_spec (f : Option CredentialFilter) (e : Env) :
    EnvironmentBackend.list f e = EnvironmentBackend.list none e ∧
    (∀ id : CredentialId,
       id ∈ EnvironmentBackend.list f e ↔
         id.workspaceId = none ∧
           ∃ vars, ENV_MAP id.type = some vars ∧ ∃ v ∈ vars, jsTruthy (e v) = true) := by
  constructor
  · rfl
  · rintro ⟨t, w⟩
    simp only [EnvironmentBackend.list, List.mem_map, List.mem_filter]
    constructor
    · rintro ⟨⟨pt, pv⟩, ⟨hmem, htr⟩, heq⟩
      obtain ⟨rfl, rfl⟩ : pt = t ∧ (none : Option String) = w := by
        simpa [CredentialId.mk.injEq] using heq
      exact ⟨rfl, pv, (ENV_MAP_entries_mem pt pv).1 hmem,
             (jsTruthy_getEnvValue_iff pv e).1 htr⟩
    · rintro ⟨rfl, vars, hm, hv⟩
      exact ⟨(t, vars), ⟨(ENV_MAP_entries_mem t vars).2 hm,
             (jsTruthy_getEnvValue_iff vars e).2 hv⟩, rfl⟩


/-- C2 (amended): after `clearAuthEnvironment()`, `isProxyAuthConfigured`
returns false for every environment state; and — provided the backend-only
variables `CRAFT_ANTHROPIC_API_KEY` and `CRAFT_CLAUDE_OAUTH_TOKEN` hold no
non-empty value (the Configurator never clears them) — `EnvironmentBackend.get`
returns `null` for every id and `EnvironmentBackend.list` returns the empty
list. -/
theorem clearAuthEnvironment_queries_empty (e : Env) :
    isProxyAuthConfigured (clearAuthEnvironment e) = false ∧
    (jsTruthy (e "CRAFT_ANTHROPIC_API_KEY") = false →
      jsTruthy (e "CRAFT_CLAUDE_OAUTH_TOKEN") = false →
      (∀ id : CredentialId, EnvironmentBackend.get id (clearAuthEnvironment e) = none) ∧
      (∀ f, EnvironmentBackend.list f (clearAuthEnvironment e) = [])) := by
  have hc : ∀ k, k ∈ managedVars → clearAuthEnvironment e k = none := by
    intro k hk
    simp [clearAuthEnvironment_apply, hk]
  have hcraft1 : clearAuthEnvironment e "CRAFT_ANTHROPIC_API_KEY" =
      e "CRAFT_ANTHROPIC_API_KEY" := by
    simp [clearAuthEnvironment_apply, managedVars]
  have hcraft2 : clearAuthEnvironment e "CRAFT_CLAUDE_OAUTH_TOKEN" =
      e "CRAFT_CLAUDE_OAUTH_TOKEN" := by
    simp [clearAuthEnvironment_apply, managedVars]
  refine ⟨?_, ?_⟩
  · have hb := hc "ANTHROPIC_BASE_URL" (by decide)
    simp [isProxyAuthConfigured, hb, jsTruthy_none]
  · intro h1 h2
    have hall : ∀ t vars, ENV_MAP t = some vars →
        getEnvValue vars (clearAuthEnvironment e) = none := by
      intro t vars hm
      have hmem := (ENV_MAP_entries_mem t vars).2 hm
      simp [ENV_MAP_entries, Prod.ext_iff] at hmem
      rcases hmem with ⟨rfl, rfl⟩ | ⟨rfl, rfl⟩ | ⟨rfl, rfl⟩
      · refine (getEnvValue_eq_none_iff _ _).2 ?_
        intro v hv
        simp at hv
        rcases hv with rfl | rfl
        · rw [hcraft1]
          exact h1
        · rw [hc _ (by decide)]
          rfl
      · refine (getEnvValue_eq_none_iff _ _).2 ?_
        intro v hv
        simp at hv
        subst hv
        rw [hcraft2]
        exact h2
      · refine (getEnvValue_eq_none_iff _ _).2 ?_
        intro v hv
        simp at hv
        subst hv
        rw [hc _ (by decide)]
        rfl
    refine ⟨?_, ?_⟩
    · intro id
      by_cases hw : jsTruthy id.workspaceId
      · simp [EnvironmentBackend.get, hw]
      · rcases hm : ENV_MAP id.type with _ | vars
        · simp [EnvironmentBackend.get, hw, hm]
        · have hn := hall id.type vars hm
          simp [EnvironmentBackend.get, hw, hm, hn]
    · intro f
      have g1 : getEnvValue ["CRAFT_ANTHROPIC_API_KEY", "ANTHROPIC_API_KEY"]
          (clearAuthEnvironment e) = none := hall "anthropic_api_key" _ rfl
      have g2 : getEnvValue ["CRAFT_CLAUDE_OAUTH_TOKEN"]
          (clearAuthEnvironment e) = none := hall "claude_oauth" _ rfl
      have g3 : getEnvValue ["ANTHROPIC_AUTH_TOKEN"]
          (clearAuthEnvironment e) = none := hall "anthropic_auth_token" _ rfl
      simp [EnvironmentBackend.list, ENV_MAP_entries, g1, g2, g3, jsTruthy_none]

/-- Witness for C2: a clear over an environment holding an API key and a base
URL (and no backend-only variables) leaves every query empty. -/
theorem clearAuthEnvironment_queries_empty_witness :
    isProxyAuthConfigured (clearAuthEnvironment
        (fun k => if k = "ANTHROPIC_API_KEY" then some "a"
          else if k = "ANTHROPIC_BASE_URL" then some "b" else none)) = false ∧
    EnvironmentBackend.get ⟨"anthropic_api_key", none⟩ (clearAuthEnvironment
        (fun k => if k = "ANTHROPIC_API_KEY" then some "a"
          else if k = "ANTHROPIC_BASE_URL" then some "b" else none)) = none ∧
    EnvironmentBackend.list none (clearAuthEnvironment
        (fun k => if k = "ANTHROPIC_API_KEY" then some "a"
          else if k = "ANTHROPIC_BASE_URL" then some "b" else none)) = [] :=
  ⟨(clearAuthEnvironment_queries_empty
      (fun k => if k = "ANTHROPIC_API_KEY" then some "a"
        else if k = "ANTHROPIC_BASE_URL" then some "b" else none)).1,
   ((clearAuthEnvironment_queries_empty
      (fun k => if k = "ANTHROPIC_API_KEY" then some "a"
        else if k = "ANTHROPIC_BASE_URL" then some "b" else none)).2
      (by decide) (by decide)).1 ⟨"anthropic_api_key", none⟩,
   ((clearAuthEnvironment_queries_empty
      (fun k => if k = "ANTHROPIC_API_KEY" then some "a"
        else if k = "ANTHROPIC_BASE_URL" then some "b" else none)).2
      (by decide) (by decide)).2 none⟩

/-- C2 counterexample: in an environment where `CRAFT_ANTHROPIC_API_KEY` holds
a value, `clearAuthEnvironment()` does not delete it (it clears only the four
managed slots), so a subsequent backend `get`/`list` still finds the
credential — contradicting the claim for an arbitrary environment state. -/
theorem clearAuthEnvironment_craft_counterexample :
    EnvironmentBackend.get ⟨"anthropic_api_key", none⟩
        (clearAuthEnvironment
          (fun k => if k = "CRAFT_ANTHROPIC_API_KEY" then some "x" else none)) =
      some ⟨"x"⟩ ∧
    EnvironmentBackend.list none
        (clearAuthEnvironment
          (fun k => if k = "CRAFT_ANTHROPIC_API_KEY" then some "x" else none)) =
      [⟨"anthropic_api_key", none⟩] :=
  ⟨by decide, by decide⟩

end CraftAgents
